import Mathlib

/-!
Shallow embedding of `src/google_sheets_data_replicator.py`
(class `GoogleSheetsDataReplicator`), covering the task-configuration
parsing and per-task range-copy loop:

* `execute_request` — the quota-aware executor (lines 101-110), modelled at
  the level of a single logical request whose successive execution attempts
  are given as a list of outcomes (success, or an HTTP error with a status
  string).  A 429 status sleeps 100 units and retries the same request with
  the remaining attempts; an exhausted attempt list stands for the run that
  never leaves the unbounded retry loop (result `none`).
* `fetch_config_data` (lines 57-67) — header scan and task-list extraction,
  with the fetched response modelled as `Option` rows (`none` = no
  `values` key in the response).
* `process_tasks` (lines 69-83) and `get_source_destination_range_pairs`
  (lines 86-92) — the per-task loop.  Remote effects are modelled by an
  environment `env : Call → Outcome` giving, for each logical request, the
  final outcome of `execute_request` for it: success with a response, or
  the non-429 `HttpError` it propagates (which
  `execute_request_or_log_error`, lines 94-99, catches and records).  The
  state threads the list of issued calls (the trace, in order) and the
  accumulated error rows.  A Python `IndexError` from a list subscript is
  an uncaught exception: it is modelled as `Except.error` carrying the
  state reached so far, and it aborts the run.
* `handle_errors` (lines 115-126) and `add_error` (lines 112-113).
-/

namespace GoogleSheetsReplicator

/-- A `values`-style payload: the dictionary shape shared by `values().get`
responses and `values().update` bodies (`range`, `majorDimension`,
`values`). -/
structure ValueRange where
  range : String
  majorDimension : String
  values : List (List String)
deriving DecidableEq, Repr

/-- An `HttpError` as the source inspects it: `e.resp['status']` (a string,
compared against `'429'`) plus the rest of the error rendered as text. -/
structure HttpErr where
  status : String
  detail : String
deriving DecidableEq, Repr

/-- Outcome of one `request.execute()` attempt. -/
inductive AttemptOutcome where
  | ok (resp : ValueRange)
  | err (e : HttpErr)
deriving DecidableEq, Repr

/-- `execute_request` (source lines 101-110): run the attempts in order.
On status `'429'` sleep 100 units and retry the same request; on any other
`HttpError` re-raise it; on success return the result unchanged.  The
result pairs the final answer (`none` when the attempt list is exhausted,
i.e. the call is still stuck in the retry loop) with the total time slept. -/
def execute_request : List AttemptOutcome → Option (Except HttpErr ValueRange) × Nat
  | [] => (none, 0)
  | .ok r :: _ => (some (.ok r), 0)
  | .err e :: rest =>
    if e.status = "429" then
      ((execute_request rest).1, 100 + (execute_request rest).2)
    else
      (some (.error e), 0)

/-! ## Logical request layer

`process_tasks` issues logical requests (one per `values().get` /
`values().update` call site).  A `Call` records the request exactly as the
source builds it; the environment answers with the final outcome of
`execute_request` for it: a response, or the non-429 `HttpError` that
`execute_request` propagates (rendered as a detail string, as the source
interpolates `{e}` into the recorded message). -/

/-- A logical remote request, as built at the `values().get` /
`values().update` call sites.  `valueRenderOption` is `none` for the
configuration fetch (line 58), which does not pass one. -/
inductive Call where
  | read (spreadsheetId : String) (range : String) (majorDimension : String)
      (valueRenderOption : Option String)
  | write (spreadsheetId : String) (range : String) (valueInputOption : String)
      (body : ValueRange)
deriving DecidableEq, Repr

/-- Final outcome of `execute_request` on a logical request: success, or
the non-429 `HttpError` it re-raises. -/
inductive Outcome where
  | ok (resp : ValueRange)
  | err (detail : String)
deriving DecidableEq, Repr

/-- Whether an outcome is the error case. -/
def Outcome.isErr : Outcome → Bool
  | .ok _ => false
  | .err _ => true

/-- One `{'source_range': ..., 'destination_range': ...}` dictionary built
by `get_source_destination_range_pairs` (line 91). -/
structure RangePair where
  source_range : String
  destination_range : String
deriving DecidableEq, Repr

/-- The loop body of `get_source_destination_range_pairs` over the row tail
starting at index 5: `task[i:i+2]` unpacks two elements per step.  A
one-element final slice makes the Python unpacking raise `ValueError`,
modelled as `none` (the caller's even-length check keeps this unreachable). -/
def pairsFromTail : List String → Option (List RangePair)
  | [] => some []
  | [_] => none
  | s :: d :: rest => (pairsFromTail rest).map (⟨s, d⟩ :: ·)

/-- `get_source_destination_range_pairs` (source lines 86-92): the pairs at
positions `5, 7, 9, …` of the task row. -/
def get_source_destination_range_pairs (task : List String) : Option (List RangePair) :=
  pairsFromTail (task.drop 5)

/-- The four column indices resolved by `fetch_config_data`, assumed
resolved (the source stores them as instance fields and `process_tasks`
uses them as plain list subscripts). -/
structure Config where
  source_sheet_index : Nat
  destination_sheet_index : Nat
  task_id_index : Nat
  enable_index : Nat
deriving DecidableEq, Repr

/-- The mutable state `process_tasks` threads: the trace of issued logical
calls (in order) and `self.errors` (one single-cell row per message, as
`add_error` builds them). -/
structure ProcState where
  calls : List Call
  errors : List (List String)
deriving DecidableEq, Repr

/-- `add_error` (source lines 112-113): `self.errors.append([message])`. -/
def add_error (st : ProcState) (message : String) : ProcState :=
  { st with errors := st.errors ++ [[message]] }

/-- `execute_request_or_log_error` (source lines 94-99) at the logical
layer: issue the request (recording it in the trace); on success return the
response, on a (non-429) `HttpError` record
`f"{error_message}: {e}"` and return `None`. -/
def execute_request_or_log_error (env : Call → Outcome) (request : Call)
    (error_message : String) (st : ProcState) : Option ValueRange × ProcState :=
  let st := { st with calls := st.calls ++ [request] }
  match env request with
  | .ok r => (some r, st)
  | .err d => (none, add_error st (error_message ++ ": " ++ d))

/-- The error message recorded when the read of one pair fails
(lines 78 and 98 combined). -/
def readFailMsg (tid d : String) : String :=
  "Failed to fetch data for task " ++ tid ++ ": " ++ d

/-- The error message recorded when the write of one pair fails
(lines 83 and 98 combined). -/
def writeFailMsg (tid d : String) : String :=
  "Failed to write data for task " ++ tid ++ ": " ++ d

/-- The error message recorded for a malformed task row (line 73). -/
def oddShapeMsg (tid : String) : String :=
  "Task " ++ tid ++ " is not configured properly. Check source and destination pair."

/-- The shape test of line 72, with Python semantics: `(len(task) - 5) % 2`
is computed in `Int` (Python's `%` on a positive modulus is Euclidean, so
e.g. a row of length 4 has `(4 - 5) % 2 == 1` and is treated as odd). -/
def tailLenOdd (task : List String) : Bool :=
  ((task.length : Int) - 5) % 2 != 0

/-- The body of the inner loop of `process_tasks` (lines 76-83) for one
range pair: build the read request (subscripting the row at the source
sheet and task id columns — an out-of-range subscript raises `IndexError`,
modelled as `Except.error` carrying the state reached so far); issue it via
`execute_request_or_log_error`; on `None` continue to the next pair;
otherwise overwrite the response's `range` with the destination range and
issue the write request the same way. -/
def process_pair (cfg : Config) (env : Call → Outcome) (task : List String)
    (p : RangePair) (st : ProcState) : Except ProcState ProcState :=
  match task[cfg.source_sheet_index]? with
  | none => .error st
  | some src =>
    match task[cfg.task_id_index]? with
    | none => .error st
    | some tid =>
      let read_request : Call := .read src p.source_range "ROWS" (some "UNFORMATTED_VALUE")
      match execute_request_or_log_error env read_request
          ("Failed to fetch data for task " ++ tid) st with
      | (none, st) => .ok st
      | (some resp, st) =>
        match task[cfg.destination_sheet_index]? with
        | none => .error st
        | some dst =>
          let body := { resp with range := p.destination_range }
          let write_request : Call := .write dst p.destination_range "RAW" body
          .ok (execute_request_or_log_error env write_request
              ("Failed to write data for task " ++ tid) st).2

/-- The inner loop of `process_tasks` over the extracted pairs, left to
right. -/
def process_pairs (cfg : Config) (env : Call → Outcome) (task : List String) :
    List RangePair → ProcState → Except ProcState ProcState
  | [], st => .ok st
  | p :: ps, st =>
    match process_pair cfg env task p st with
    | .error st => .error st
    | .ok st => process_pairs cfg env task ps st

/-- One iteration of the outer loop of `process_tasks` (lines 70-83):
skip unless the Enable cell is exactly `"TRUE"`; record an error and
continue if the tail length is odd; otherwise process the extracted pairs. -/
def process_one (cfg : Config) (env : Call → Outcome) (task : List String)
    (st : ProcState) : Except ProcState ProcState :=
  match task[cfg.enable_index]? with
  | none => .error st
  | some en =>
    if en ≠ "TRUE" then .ok st
    else if tailLenOdd task then
      match task[cfg.task_id_index]? with
      | none => .error st
      | some tid => .ok (add_error st (oddShapeMsg tid))
    else
      match get_source_destination_range_pairs task with
      | none => .error st
      | some pairs => process_pairs cfg env task pairs st

/-- The outer loop of `process_tasks` from a given state, in configuration
row order; an uncaught exception aborts the whole loop. -/
def process_tasks_from (cfg : Config) (env : Call → Outcome) :
    List (List String) → ProcState → Except ProcState ProcState
  | [], st => .ok st
  | t :: ts, st =>
    match process_one cfg env t st with
    | .error st => .error st
    | .ok st => process_tasks_from cfg env ts st

/-- `process_tasks` (source lines 69-83), from the initial empty state. -/
def process_tasks (cfg : Config) (env : Call → Outcome)
    (tasks : List (List String)) : Except ProcState ProcState :=
  process_tasks_from cfg env tasks ⟨[], []⟩

/-- The four optional column-index fields as `fetch_config_data` leaves
them (`None` in `__init__`, lines 16-19, possibly overwritten by the header
scan). -/
structure HeaderIdx where
  source_sheet_index : Option Nat
  destination_sheet_index : Option Nat
  task_id_index : Option Nat
  enable_index : Option Nat
deriving DecidableEq, Repr

/-- One iteration of the header scan (lines 61-65): the four `if`
statements, each overwriting its field when the cell equals its label. -/
def headerStep (h : HeaderIdx) (cv : Nat × String) : HeaderIdx :=
  let h1 := if cv.2 = "Source Sheet Id" then { h with source_sheet_index := some cv.1 } else h
  let h2 := if cv.2 = "Destination Sheet Id" then { h1 with destination_sheet_index := some cv.1 } else h1
  let h3 := if cv.2 = "ID" then { h2 with task_id_index := some cv.1 } else h2
  if cv.2 = "Enable" then { h3 with enable_index := some cv.1 } else h3

/-- The header scan of `fetch_config_data`: `enumerate(response['values'][0])`
folded through the four overwriting `if`s. -/
def resolveHeader (row : List String) : HeaderIdx :=
  row.enum.foldl headerStep ⟨none, none, none, none⟩

/-- How `fetch_config_data` can fail: the explicit
`Exception("failed to fetch configuration data")` of line 60 when the
response has no `values` key, or the uncaught `IndexError` from
`response['values'][0]` (line 61) when the key holds an empty list. -/
inductive FetchError where
  | configFetchError
  | indexError
deriving DecidableEq, Repr

/-- `fetch_config_data` (source lines 57-67), with the fetched response
modelled by its `values` entry (`none` = key absent).  On success it yields
the resolved header indices and `response['values'][1:]` as the task
list. -/
def fetch_config_data :
    Option (List (List String)) → Except FetchError (HeaderIdx × List (List String))
  | none => .error .configFetchError
  | some [] => .error .indexError
  | some (row0 :: rest) => .ok (resolveHeader row0, rest)

/-- `handle_errors` (source lines 115-126): when any errors were recorded,
issue one write of all error rows to `Errors!A1:A{N}` of the configuration
document, through the propagating `execute_request` — so its failure is
fatal.  Result: the calls issued and whether a fatal failure occurred. -/
def handle_errors (configuration_sheet_id : String) (env : Call → Outcome)
    (errors : List (List String)) : List Call × Bool :=
  if errors.length > 0 then
    let error_range := "Errors!A1:A" ++ toString errors.length
    let body : ValueRange := ⟨error_range, "ROWS", errors⟩
    let write_request : Call := .write configuration_sheet_id error_range "RAW" body
    ([write_request], (env write_request).isErr)
  else
    ([], false)

/-- The tail of `run` (source lines 29-31) once the configuration is
loaded: `process_tasks` then `handle_errors`.  Result: the full trace of
issued logical calls, and whether the run died on an uncaught exception —
either an `IndexError` inside `process_tasks` (in which case later tasks
are never processed and the accumulated errors are never flushed) or a
fatal failure of the error-flush write. -/
def run_after_config (configuration_sheet_id : String) (cfg : Config)
    (env : Call → Outcome) (tasks : List (List String)) : List Call × Bool :=
  match process_tasks cfg env tasks with
  | .error st => (st.calls, true)
  | .ok st =>
    let flush := handle_errors configuration_sheet_id env st.errors
    (st.calls ++ flush.1, flush.2)

/-! ## Spec-side definitions

Used only to compare the code's behaviour against the spec's wording. -/

/-- Modelled from the spec's words for header resolution: "the recorded
column index is the position of the last occurrence of that label in
row 0". -/
def specLastOccurrence (label : String) (row : List String) : Option Nat :=
  ((row.enum.filter (fun cv => cv.2 = label)).getLast?).map Prod.fst

/-- The per-pair contribution of the inner loop of `process_tasks`: which
calls are issued and which error rows are recorded for one range pair,
as a function of the environment's answers.  `process_pairs` is exactly
the concatenation of these contributions (see `process_pairs_effects`). -/
def pairEffect (env : Call → Outcome) (src dst tid : String) (p : RangePair) :
    List Call × List (List String) :=
  let rc : Call := .read src p.source_range "ROWS" (some "UNFORMATTED_VALUE")
  match env rc with
  | .err d => ([rc], [[readFailMsg tid d]])
  | .ok resp =>
    let wc : Call := .write dst p.destination_range "RAW" { resp with range := p.destination_range }
    match env wc with
    | .err d => ([rc, wc], [[writeFailMsg tid d]])
    | .ok _ => ([rc, wc], [])

/-! ## Helper lemmas -/

lemma tailLenOdd_eq_false (task : List String)
    (h : ((task.length : Int) - 5) % 2 = 0) : tailLenOdd task = false := by
  simp [tailLenOdd, h]

lemma tailLenOdd_eq_true (task : List String)
    (h : ((task.length : Int) - 5) % 2 = 1) : tailLenOdd task = true := by
  simp [tailLenOdd, h]

lemma getD_cons_cons_add_two (a b : String) (l : List String) (n : Nat) :
    (a :: b :: l).getD (n + 2) "" = l.getD n "" := by
  simp [List.getD_cons_succ]

lemma pairsFromTail_even (m : Nat) : ∀ (l : List String), l.length = 2 * m →
    pairsFromTail l = some ((List.range m).map fun k =>
      RangePair.mk (l.getD (2 * k) "") (l.getD (2 * k + 1) "")) := by
  induction m with
  | zero =>
    intro l h
    have : l = [] := by cases l <;> simp_all
    subst this
    simp [pairsFromTail]
  | succ m ih =>
    intro l h
    rcases l with _ | ⟨a, _ | ⟨b, rest⟩⟩
    · simp at h
    · simp at h; omega
    · have hr : rest.length = 2 * m := by
        simp only [List.length_cons] at h; omega
      rw [show pairsFromTail (a :: b :: rest) =
            (pairsFromTail rest).map (fun ps => RangePair.mk a b :: ps) from rfl,
          ih rest hr, List.range_succ_eq_map, List.map_cons, List.map_map]
      congr 1

lemma process_pair_effects (cfg : Config) (env : Call → Outcome) (task : List String)
    (p : RangePair) (st : ProcState) (src dst tid : String)
    (hs : task[cfg.source_sheet_index]? = some src)
    (hd : task[cfg.destination_sheet_index]? = some dst)
    (hi : task[cfg.task_id_index]? = some tid) :
    process_pair cfg env task p st =
      .ok ⟨st.calls ++ (pairEffect env src dst tid p).1,
           st.errors ++ (pairEffect env src dst tid p).2⟩ := by
  cases henv : env (.read src p.source_range "ROWS" (some "UNFORMATTED_VALUE")) with
  | err d =>
    simp [process_pair, execute_request_or_log_error, pairEffect, hs, hi, henv,
      add_error, readFailMsg]
  | ok resp =>
    cases henw : env (.write dst p.destination_range "RAW"
        { resp with range := p.destination_range }) with
    | err d =>
      simp [process_pair, execute_request_or_log_error, pairEffect, hs, hi, hd, henv, henw,
        add_error, writeFailMsg]
    | ok ack =>
      simp [process_pair, execute_request_or_log_error, pairEffect, hs, hi, hd, henv, henw]

lemma process_pairs_effects (cfg : Config) (env : Call → Outcome) (task : List String)
    (src dst tid : String)
    (hs : task[cfg.source_sheet_index]? = some src)
    (hd : task[cfg.destination_sheet_index]? = some dst)
    (hi : task[cfg.task_id_index]? = some tid) :
    ∀ (ps : List RangePair) (st : ProcState),
    process_pairs cfg env task ps st =
      .ok ⟨st.calls ++ (ps.map fun p => (pairEffect env src dst tid p).1).flatten,
           st.errors ++ (ps.map fun p => (pairEffect env src dst tid p).2).flatten⟩ := by
  intro ps
  induction ps with
  | nil => intro st; simp [process_pairs]
  | cons p ps ih =>
    intro st
    rw [show process_pairs cfg env task (p :: ps) st =
          (match process_pair cfg env task p st with
           | .error st => .error st
           | .ok st => process_pairs cfg env task ps st) from rfl,
        process_pair_effects cfg env task p st src dst tid hs hd hi]
    simp only [ih]
    simp [List.append_assoc]

lemma process_tasks_from_append (cfg : Config) (env : Call → Outcome) :
    ∀ (l1 l2 : List (List String)) (st : ProcState),
    process_tasks_from cfg env (l1 ++ l2) st =
      match process_tasks_from cfg env l1 st with
      | .error st => .error st
      | .ok st => process_tasks_from cfg env l2 st := by
  intro l1
  induction l1 with
  | nil => intro l2 st; rfl
  | cons t ts ih =>
    intro l2 st
    simp only [List.cons_append, process_tasks_from]
    cases process_one cfg env t st with
    | error st => rfl
    | ok st => exact ih l2 st

lemma process_one_skip (cfg : Config) (env : Call → Outcome) (task : List String)
    (st : ProcState) (v : String)
    (hv : task[cfg.enable_index]? = some v) (hne : v ≠ "TRUE") :
    process_one cfg env task st = .ok st := by
  simp [process_one, hv, hne]

lemma process_one_odd (cfg : Config) (env : Call → Outcome) (task : List String)
    (st : ProcState) (tid : String)
    (hen : task[cfg.enable_index]? = some "TRUE")
    (hodd : ((task.length : Int) - 5) % 2 = 1)
    (hid : task[cfg.task_id_index]? = some tid) :
    process_one cfg env task st = .ok (add_error st (oddShapeMsg tid)) := by
  simp [process_one, hen, tailLenOdd_eq_true task hodd, hid]

lemma process_one_enabled_even (cfg : Config) (env : Call → Outcome) (task : List String)
    (st : ProcState)
    (hen : task[cfg.enable_index]? = some "TRUE")
    (heven : ((task.length : Int) - 5) % 2 = 0) :
    process_one cfg env task st =
      match get_source_destination_range_pairs task with
      | none => .error st
      | some pairs => process_pairs cfg env task pairs st := by
  simp [process_one, hen, tailLenOdd_eq_false task heven]

lemma headerStep_source (h : HeaderIdx) (cv : Nat × String) :
    (headerStep h cv).source_sheet_index =
      if cv.2 = "Source Sheet Id" then some cv.1 else h.source_sheet_index := by
  unfold headerStep
  split_ifs <;> rfl

lemma headerStep_destination (h : HeaderIdx) (cv : Nat × String) :
    (headerStep h cv).destination_sheet_index =
      if cv.2 = "Destination Sheet Id" then some cv.1 else h.destination_sheet_index := by
  unfold headerStep
  split_ifs <;> rfl

lemma headerStep_task_id (h : HeaderIdx) (cv : Nat × String) :
    (headerStep h cv).task_id_index =
      if cv.2 = "ID" then some cv.1 else h.task_id_index := by
  unfold headerStep
  split_ifs <;> rfl

lemma headerStep_enable (h : HeaderIdx) (cv : Nat × String) :
    (headerStep h cv).enable_index =
      if cv.2 = "Enable" then some cv.1 else h.enable_index := by
  unfold headerStep
  split_ifs <;> rfl

lemma scan_foldl_lastMatch (label : String) :
    ∀ (l : List (Nat × String)) (a : Option Nat),
    l.foldl (fun acc cv => if cv.2 = label then some cv.1 else acc) a =
      match (l.filter (fun cv => decide (cv.2 = label))).getLast? with
      | some cv => some cv.1
      | none => a := by
  intro l
  induction l using List.reverseRecOn with
  | nil => intro a; rfl
  | append_singleton l x ih =>
    intro a
    rw [List.foldl_append, List.filter_append]
    by_cases hx : x.2 = label
    · simp only [List.foldl_cons, List.foldl_nil, hx, if_true]
      simp [List.filter_cons, hx, List.getLast?_append]
    · simp only [List.foldl_cons, List.foldl_nil, hx, if_false]
      simp [List.filter_cons, hx, ih a]

lemma foldl_headerStep_source (l : List (Nat × String)) (h : HeaderIdx) :
    (l.foldl headerStep h).source_sheet_index =
      l.foldl (fun a cv => if cv.2 = "Source Sheet Id" then some cv.1 else a)
        h.source_sheet_index := by
  induction l generalizing h with
  | nil => rfl
  | cons cv l ih => rw [List.foldl_cons, List.foldl_cons, ih, headerStep_source]

lemma foldl_headerStep_destination (l : List (Nat × String)) (h : HeaderIdx) :
    (l.foldl headerStep h).destination_sheet_index =
      l.foldl (fun a cv => if cv.2 = "Destination Sheet Id" then some cv.1 else a)
        h.destination_sheet_index := by
  induction l generalizing h with
  | nil => rfl
  | cons cv l ih => rw [List.foldl_cons, List.foldl_cons, ih, headerStep_destination]

lemma foldl_headerStep_task_id (l : List (Nat × String)) (h : HeaderIdx) :
    (l.foldl headerStep h).task_id_index =
      l.foldl (fun a cv => if cv.2 = "ID" then some cv.1 else a) h.task_id_index := by
  induction l generalizing h with
  | nil => rfl
  | cons cv l ih => rw [List.foldl_cons, List.foldl_cons, ih, headerStep_task_id]

lemma foldl_headerStep_enable (l : List (Nat × String)) (h : HeaderIdx) :
    (l.foldl headerStep h).enable_index =
      l.foldl (fun a cv => if cv.2 = "Enable" then some cv.1 else a) h.enable_index := by
  induction l generalizing h with
  | nil => rfl
  | cons cv l ih => rw [List.foldl_cons, List.foldl_cons, ih, headerStep_enable]

lemma lastMatch_eq_specLastOccurrence (label : String) (row : List String) :
    (match (row.enum.filter (fun cv => decide (cv.2 = label))).getLast? with
      | some cv => some cv.1
      | none => (none : Option Nat)) = specLastOccurrence label row := by
  unfold specLastOccurrence
  cases (row.enum.filter (fun cv => decide (cv.2 = label))).getLast? <;> rfl

lemma get_pairs_indexed (task : List String)
    (hlen : 5 ≤ task.length) (heven : (task.length - 5) % 2 = 0) :
    get_source_destination_range_pairs task =
      some ((List.range ((task.length - 5) / 2)).map fun k =>
        RangePair.mk (task.getD (5 + 2 * k) "") (task.getD (6 + 2 * k) "")) := by
  unfold get_source_destination_range_pairs
  have hdl : (task.drop 5).length = 2 * ((task.length - 5) / 2) := by
    rw [List.length_drop]; omega
  rw [pairsFromTail_even _ _ hdl]
  congr 1
  apply List.map_congr_left
  intro k _
  have e : 5 + (2 * k + 1) = 6 + 2 * k := by omega
  simp [List.getD_eq_getElem?_getD, List.getElem?_drop, e]

/-! ## Claims -/

/-- **C8** (confirmed): header resolution over the configuration header row
is last-match-wins: for each of the four recognized labels, the recorded
column index is the position of the last occurrence of that label in
row 0, later occurrences overwriting earlier assignments. -/
theorem c8_header_resolution_last_match_wins (row : List String) :
    (resolveHeader row).task_id_index = specLastOccurrence "ID" row ∧
    (resolveHeader row).source_sheet_index = specLastOccurrence "Source Sheet Id" row ∧
    (resolveHeader row).destination_sheet_index =
      specLastOccurrence "Destination Sheet Id" row ∧
    (resolveHeader row).enable_index = specLastOccurrence "Enable" row := by
  refine ⟨?_, ?_, ?_, ?_⟩
  · unfold resolveHeader
    rw [foldl_headerStep_task_id, scan_foldl_lastMatch, lastMatch_eq_specLastOccurrence]
  · unfold resolveHeader
    rw [foldl_headerStep_source, scan_foldl_lastMatch, lastMatch_eq_specLastOccurrence]
  · unfold resolveHeader
    rw [foldl_headerStep_destination, scan_foldl_lastMatch, lastMatch_eq_specLastOccurrence]
  · unfold resolveHeader
    rw [foldl_headerStep_enable, scan_foldl_lastMatch, lastMatch_eq_specLastOccurrence]

/-- **C9** (confirmed): for a task row of length `L ≥ 5` with `L - 5` even,
the extractor returns the `(L - 5) / 2` pairs whose `k`-th element takes
the cells at positions `5 + 2k` and `6 + 2k`.  Purity/idempotence holds by
construction (the embedding is a function); the second conjunct records
it. -/
theorem c9_range_pair_extractor (task : List String)
    (hlen : 5 ≤ task.length) (heven : (task.length - 5) % 2 = 0) :
    get_source_destination_range_pairs task =
      some ((List.range ((task.length - 5) / 2)).map fun k =>
        RangePair.mk (task.getD (5 + 2 * k) "") (task.getD (6 + 2 * k) "")) ∧
    get_source_destination_range_pairs task = get_source_destination_range_pairs task :=
  ⟨get_pairs_indexed task hlen heven, rfl⟩

/-- Witness for C9 at the spec's scenario row: exactly one pair,
`A1:A2 → B1:B2`. -/
theorem c9_range_pair_extractor_witness :
    get_source_destination_range_pairs ["T1", "srcSheet", "dstSheet", "TRUE", "", "A1:A2", "B1:B2"] =
      some [{ source_range := "A1:A2", destination_range := "B1:B2" }] := by
  have h := c9_range_pair_extractor
    ["T1", "srcSheet", "dstSheet", "TRUE", "", "A1:A2", "B1:B2"] (by decide) (by decide)
  exact h.1.trans (by decide)

/-- **C2** (confirmed): a task row whose Enable cell exists and is not
exactly `"TRUE"` is skipped: the state (trace and errors) is unchanged and
processing moves to the remaining tasks. -/
theorem c2_disabled_task_skipped (cfg : Config) (env : Call → Outcome)
    (task : List String) (st : ProcState) (rest : List (List String)) (v : String)
    (hv : task[cfg.enable_index]? = some v) (hne : v ≠ "TRUE") :
    process_tasks_from cfg env (task :: rest) st = process_tasks_from cfg env rest st := by
  simp only [process_tasks_from, process_one_skip cfg env task st v hv hne]

/-- Witness for C2: a disabled row (Enable = `"FALSE"`) yields zero calls
and zero errors. -/
theorem c2_disabled_task_skipped_witness :
    process_tasks ⟨1, 2, 0, 3⟩ (fun _ => .err "boom")
      [["T1", "srcSheet", "dstSheet", "FALSE", "", "A1:A2", "B1:B2"]] = .ok ⟨[], []⟩ := by
  have h := c2_disabled_task_skipped ⟨1, 2, 0, 3⟩ (fun _ => .err "boom")
    ["T1", "srcSheet", "dstSheet", "FALSE", "", "A1:A2", "B1:B2"] ⟨[], []⟩ [] "FALSE"
    (by decide) (by decide)
  exact h.trans rfl

/-- Counterexample to **C3** as stated: a row with an odd tail
(`(6 - 5) % 2 = 1`) whose Enable cell is `"FALSE"` is skipped before the
shape check, so zero Error Records are added — not exactly one. -/
theorem c3_counterexample :
    ((((["T1", "srcSheet", "dstSheet", "FALSE", "", "A1:A2"] : List String).length : Int)
        - 5) % 2 = 1) ∧
    process_tasks ⟨1, 2, 0, 3⟩ (fun _ => .err "boom")
      [["T1", "srcSheet", "dstSheet", "FALSE", "", "A1:A2"]] = .ok ⟨[], []⟩ :=
  ⟨by decide, rfl⟩

/-- **C3** (corrected): for an *enabled* task row (Enable cell exactly
`"TRUE"`) whose ID cell exists and whose `(length - 5)` is odd (Python
semantics, so e.g. length 4 counts as odd), exactly one Error Record naming
the task's ID is added, no calls are issued for the task, and processing
continues with the next task. -/
theorem c3_odd_task_one_error (cfg : Config) (env : Call → Outcome)
    (task : List String) (st : ProcState) (rest : List (List String)) (tid : String)
    (hen : task[cfg.enable_index]? = some "TRUE")
    (hodd : ((task.length : Int) - 5) % 2 = 1)
    (hid : task[cfg.task_id_index]? = some tid) :
    process_tasks_from cfg env (task :: rest) st =
      process_tasks_from cfg env rest
        { st with errors := st.errors ++ [[oddShapeMsg tid]] } := by
  simp only [process_tasks_from, process_one_odd cfg env task st tid hen hodd hid, add_error]

/-- Witness for the corrected C3: an enabled row with one unmatched range
cell produces exactly the malformed-task error and no calls. -/
theorem c3_odd_task_one_error_witness :
    process_tasks ⟨1, 2, 0, 3⟩ (fun _ => .err "boom")
      [["T1", "srcSheet", "dstSheet", "TRUE", "", "A1:A2"]] =
      .ok ⟨[], [["Task T1 is not configured properly. Check source and destination pair."]]⟩ := by
  have h := c3_odd_task_one_error ⟨1, 2, 0, 3⟩ (fun _ => .err "boom")
    ["T1", "srcSheet", "dstSheet", "TRUE", "", "A1:A2"] ⟨[], []⟩ [] "T1"
    (by decide) (by decide) (by decide)
  exact h.trans rfl

/-- **C4** (confirmed): the executor retries on a 429 after a fixed
100-unit sleep (same request, remaining attempts, unconditionally),
propagates any other `HttpError` unchanged, returns a success unchanged,
and a 429 followed by a success yields the same answer as the success
alone. -/
theorem c4_quota_executor (e : HttpErr) (d : String) (rest : List AttemptOutcome)
    (r : ValueRange) (hs : e.status ≠ "429") :
    execute_request (.err ⟨"429", d⟩ :: rest) =
      ((execute_request rest).1, 100 + (execute_request rest).2) ∧
    execute_request (.err e :: rest) = (some (.error e), 0) ∧
    execute_request (.ok r :: rest) = (some (.ok r), 0) ∧
    (execute_request (.err ⟨"429", d⟩ :: .ok r :: rest)).1 =
      (execute_request (.ok r :: rest)).1 := by
  refine ⟨?_, ?_, ?_, ?_⟩
  · simp [execute_request]
  · simp [execute_request, hs]
  · rfl
  · simp [execute_request]

/-- Witness for C4 at a concrete non-429 error, a concrete 429, and a
concrete success. -/
theorem c4_quota_executor_witness :
    execute_request [.err ⟨"429", "quota"⟩] = (none, 100) ∧
    execute_request [.err ⟨"500", "boom"⟩] = (some (.error ⟨"500", "boom"⟩), 0) ∧
    execute_request [.ok ⟨"A1", "ROWS", [["1"]]⟩] = (some (.ok ⟨"A1", "ROWS", [["1"]]⟩), 0) ∧
    (execute_request [.err ⟨"429", "quota"⟩, .ok ⟨"A1", "ROWS", [["1"]]⟩]).1 =
      (execute_request [.ok ⟨"A1", "ROWS", [["1"]]⟩]).1 :=
  c4_quota_executor ⟨"500", "boom"⟩ "quota" [] ⟨"A1", "ROWS", [["1"]]⟩ (by decide)

/-- Counterexample to **C6** as stated: a response whose `values` entry is
present but empty raises the uncaught `IndexError` of
`response['values'][0]` — neither the configuration-fetch error nor a task
list — so neither reading of the claim's "if and only if … otherwise"
holds at this input. -/
theorem c6_counterexample :
    fetch_config_data (some []) = .error .indexError ∧
    FetchError.indexError ≠ FetchError.configFetchError :=
  ⟨rfl, by decide⟩

/-- **C6** (corrected): the loader raises the configuration-fetch error
exactly when the response has no `values` entry; a present-but-empty
`values` list raises an uncaught `IndexError` instead; otherwise the task
list is the fetched rows with row 0 (the header) excluded. -/
theorem c6_config_loader (row0 : List String) (rows : List (List String)) :
    fetch_config_data none = .error .configFetchError ∧
    fetch_config_data (some []) = .error .indexError ∧
    fetch_config_data (some (row0 :: rows)) = .ok (resolveHeader row0, rows) :=
  ⟨rfl, rfl, rfl⟩

/-- **C5** (confirmed): per-pair failures are isolated.  Processing the
pair list of an enabled well-formed task (row cells at the three resolved
columns in range) never aborts, and its effect is the concatenation of
independent per-pair contributions `pairEffect`: a failed read contributes
exactly the read call and one Error Record `readFailMsg tid d` (task ID and
underlying detail) and no write; a failed write contributes both calls and
one Error Record `writeFailMsg tid d`; a clean pair contributes both calls
and no error.  Since the result is `.ok`, the outer loop goes on to all
subsequent tasks. -/
theorem c5_pair_failures_isolated (cfg : Config) (env : Call → Outcome)
    (task : List String) (src dst tid : String) (ps : List RangePair) (st : ProcState)
    (hs : task[cfg.source_sheet_index]? = some src)
    (hd : task[cfg.destination_sheet_index]? = some dst)
    (hi : task[cfg.task_id_index]? = some tid) :
    process_pairs cfg env task ps st =
      .ok ⟨st.calls ++ (ps.map fun p => (pairEffect env src dst tid p).1).flatten,
           st.errors ++ (ps.map fun p => (pairEffect env src dst tid p).2).flatten⟩ :=
  process_pairs_effects cfg env task src dst tid hs hd hi ps st

/-- Witness for C5: the read of the first pair fails, yet the second pair
is still read and written, with exactly one error recorded. -/
theorem c5_pair_failures_isolated_witness :
    process_pairs ⟨1, 2, 0, 3⟩
      (fun c => match c with
        | .read _ "A1:A2" _ _ => .err "boom"
        | _ => .ok ⟨"C1:C2", "ROWS", [["7"]]⟩)
      ["T1", "srcSheet", "dstSheet", "TRUE", "", "A1:A2", "B1:B2", "C1:C2", "D1:D2"]
      [⟨"A1:A2", "B1:B2"⟩, ⟨"C1:C2", "D1:D2"⟩] ⟨[], []⟩ =
      .ok ⟨[.read "srcSheet" "A1:A2" "ROWS" (some "UNFORMATTED_VALUE"),
            .read "srcSheet" "C1:C2" "ROWS" (some "UNFORMATTED_VALUE"),
            .write "dstSheet" "D1:D2" "RAW" ⟨"D1:D2", "ROWS", [["7"]]⟩],
           [["Failed to fetch data for task T1: boom"]]⟩ := by
  have h := c5_pair_failures_isolated ⟨1, 2, 0, 3⟩
    (fun c => match c with
      | .read _ "A1:A2" _ _ => .err "boom"
      | _ => .ok ⟨"C1:C2", "ROWS", [["7"]]⟩)
    ["T1", "srcSheet", "dstSheet", "TRUE", "", "A1:A2", "B1:B2", "C1:C2", "D1:D2"]
    "srcSheet" "dstSheet" "T1" [⟨"A1:A2", "B1:B2"⟩, ⟨"C1:C2", "D1:D2"⟩] ⟨[], []⟩
    (by decide) (by decide) (by decide)
  exact h.trans rfl

/-- **C7** (confirmed): with zero accumulated Error Records the reporter
issues no write; with `N > 0` single-message records it issues exactly one
write of the `N` single-column rows, in occurrence order, to
`Errors!A1:A{N}` of the configuration document, and the run is fatal
exactly when that write's outcome is an error (the propagating executor). -/
theorem c7_error_reporter (configuration_sheet_id : String) (env : Call → Outcome)
    (msgs : List String) (h : msgs ≠ []) :
    handle_errors configuration_sheet_id env [] = ([], false) ∧
    handle_errors configuration_sheet_id env (msgs.map fun m => [m]) =
      ([Call.write configuration_sheet_id ("Errors!A1:A" ++ toString msgs.length) "RAW"
          ⟨"Errors!A1:A" ++ toString msgs.length, "ROWS", msgs.map fun m => [m]⟩],
        (env (Call.write configuration_sheet_id ("Errors!A1:A" ++ toString msgs.length) "RAW"
          ⟨"Errors!A1:A" ++ toString msgs.length, "ROWS", msgs.map fun m => [m]⟩)).isErr) := by
  constructor
  · rfl
  · have hpos : 0 < (msgs.map fun m => [m]).length := by
      rw [List.length_map]
      exact List.length_pos.2 h
    unfold handle_errors
    rw [if_pos hpos, List.length_map]

/-- Witness for C7: two records go out as one two-row write to
`Errors!A1:A2`; a successful flush is not fatal. -/
theorem c7_error_reporter_witness :
    handle_errors "cfgSheet" (fun _ => .ok ⟨"", "", []⟩) [["e1"], ["e2"]] =
      ([Call.write "cfgSheet" "Errors!A1:A2" "RAW"
          ⟨"Errors!A1:A2", "ROWS", [["e1"], ["e2"]]⟩], false) := by
  have h := c7_error_reporter "cfgSheet" (fun _ => .ok ⟨"", "", []⟩) ["e1", "e2"] (by decide)
  exact h.2.trans (by decide)

lemma flatten_map_nil {α β : Type} (l : List α) :
    (l.map fun _ => ([] : List β)).flatten = [] := by
  induction l with
  | nil => rfl
  | cons x l ih => simp [ih]

lemma pairEffect_ok_ok (env : Call → Outcome) (src dst tid : String) (p : RangePair)
    (resp ack : ValueRange)
    (hr : env (.read src p.source_range "ROWS" (some "UNFORMATTED_VALUE")) = .ok resp)
    (hw : env (.write dst p.destination_range "RAW"
        { resp with range := p.destination_range }) = .ok ack) :
    pairEffect env src dst tid p =
      ([.read src p.source_range "ROWS" (some "UNFORMATTED_VALUE"),
        .write dst p.destination_range "RAW" { resp with range := p.destination_range }],
       []) := by
  simp [pairEffect, hr, hw]

/-- **C1** (confirmed): an enabled task row of length `L ≥ 5` with `L - 5`
even, whose resolved cells exist and whose reads and writes all succeed,
performs exactly `(L - 5) / 2` read+write pairs, in left-to-right column
order: for pair `k`, one unformatted read of the cell at `5 + 2k` from the
task's source sheet followed by one raw write of the fetched values (range
overwritten) to the cell at `6 + 2k` on the destination sheet; no errors
are recorded, and the loop then continues with the remaining task rows in
configuration row order. -/
theorem c1_enabled_even_task_copies (cfg : Config) (env : Call → Outcome)
    (task : List String) (st : ProcState) (rest : List (List String))
    (src dst tid : String) (resp ack : Nat → ValueRange)
    (hen : task[cfg.enable_index]? = some "TRUE")
    (hlen : 5 ≤ task.length)
    (heven : (task.length - 5) % 2 = 0)
    (hs : task[cfg.source_sheet_index]? = some src)
    (hd : task[cfg.destination_sheet_index]? = some dst)
    (hi : task[cfg.task_id_index]? = some tid)
    (hreads : ∀ k, k < (task.length - 5) / 2 →
      env (.read src (task.getD (5 + 2 * k) "") "ROWS" (some "UNFORMATTED_VALUE")) =
        .ok (resp k))
    (hwrites : ∀ k, k < (task.length - 5) / 2 →
      env (.write dst (task.getD (6 + 2 * k) "") "RAW"
        { resp k with range := task.getD (6 + 2 * k) "" }) = .ok (ack k)) :
    process_tasks_from cfg env (task :: rest) st =
      process_tasks_from cfg env rest
        { st with calls := st.calls ++
            ((List.range ((task.length - 5) / 2)).map fun k =>
              [Call.read src (task.getD (5 + 2 * k) "") "ROWS" (some "UNFORMATTED_VALUE"),
               Call.write dst (task.getD (6 + 2 * k) "") "RAW"
                 { resp k with range := task.getD (6 + 2 * k) "" }]).flatten } := by
  have hIntEven : ((task.length : Int) - 5) % 2 = 0 := by omega
  have heff : ∀ k ∈ List.range ((task.length - 5) / 2),
      pairEffect env src dst tid
          (RangePair.mk (task.getD (5 + 2 * k) "") (task.getD (6 + 2 * k) "")) =
        ([Call.read src (task.getD (5 + 2 * k) "") "ROWS" (some "UNFORMATTED_VALUE"),
          Call.write dst (task.getD (6 + 2 * k) "") "RAW"
            { resp k with range := task.getD (6 + 2 * k) "" }], []) := by
    intro k hk
    rw [List.mem_range] at hk
    exact pairEffect_ok_ok env src dst tid _ (resp k) (ack k) (hreads k hk) (hwrites k hk)
  have hstep : process_one cfg env task st =
      .ok { st with calls := st.calls ++
        ((List.range ((task.length - 5) / 2)).map fun k =>
          [Call.read src (task.getD (5 + 2 * k) "") "ROWS" (some "UNFORMATTED_VALUE"),
           Call.write dst (task.getD (6 + 2 * k) "") "RAW"
             { resp k with range := task.getD (6 + 2 * k) "" }]).flatten } := by
    rw [process_one_enabled_even cfg env task st hen hIntEven,
        get_pairs_indexed task hlen heven]
    show process_pairs cfg env task _ st = _
    rw [process_pairs_effects cfg env task src dst tid hs hd hi]
    have hcalls :
        (((List.range ((task.length - 5) / 2)).map fun k =>
            RangePair.mk (task.getD (5 + 2 * k) "") (task.getD (6 + 2 * k) "")).map
          (fun p => (pairEffect env src dst tid p).1)).flatten =
        ((List.range ((task.length - 5) / 2)).map fun k =>
          [Call.read src (task.getD (5 + 2 * k) "") "ROWS" (some "UNFORMATTED_VALUE"),
           Call.write dst (task.getD (6 + 2 * k) "") "RAW"
             { resp k with range := task.getD (6 + 2 * k) "" }]).flatten := by
      rw [List.map_map]
      congr 1
      apply List.map_congr_left
      intro k hk
      simp only [Function.comp_apply]
      rw [heff k hk]
    have herrs :
        (((List.range ((task.length - 5) / 2)).map fun k =>
            RangePair.mk (task.getD (5 + 2 * k) "") (task.getD (6 + 2 * k) "")).map
          (fun p => (pairEffect env src dst tid p).2)).flatten = [] := by
      rw [List.map_map]
      rw [show ((List.range ((task.length - 5) / 2)).map
            ((fun p => (pairEffect env src dst tid p).2) ∘ fun k =>
              RangePair.mk (task.getD (5 + 2 * k) "") (task.getD (6 + 2 * k) ""))) =
          (List.range ((task.length - 5) / 2)).map (fun _ => ([] : List (List String))) from
        List.map_congr_left (fun k hk => by simp only [Function.comp_apply]; rw [heff k hk])]
      exact flatten_map_nil _
    rw [hcalls, herrs, List.append_nil]
  simp only [process_tasks_from, hstep]

/-- Witness for C1 at the spec's scenario: one pair, read `A1:A2` from
`srcSheet`, write the fetched values to `B1:B2` on `dstSheet`, no errors. -/
theorem c1_enabled_even_task_copies_witness :
    process_tasks ⟨1, 2, 0, 3⟩
      (fun c => match c with
        | .read _ "A1:A2" _ _ => .ok ⟨"A1:A2", "ROWS", [["1"], ["2"]]⟩
        | _ => .ok ⟨"", "", []⟩)
      [["T1", "srcSheet", "dstSheet", "TRUE", "", "A1:A2", "B1:B2"]] =
      .ok ⟨[.read "srcSheet" "A1:A2" "ROWS" (some "UNFORMATTED_VALUE"),
            .write "dstSheet" "B1:B2" "RAW" ⟨"B1:B2", "ROWS", [["1"], ["2"]]⟩],
           []⟩ := by
  have h := c1_enabled_even_task_copies ⟨1, 2, 0, 3⟩
    (fun c => match c with
      | .read _ "A1:A2" _ _ => .ok ⟨"A1:A2", "ROWS", [["1"], ["2"]]⟩
      | _ => .ok ⟨"", "", []⟩)
    ["T1", "srcSheet", "dstSheet", "TRUE", "", "A1:A2", "B1:B2"] ⟨[], []⟩ []
    "srcSheet" "dstSheet" "T1"
    (fun _ => ⟨"A1:A2", "ROWS", [["1"], ["2"]]⟩) (fun _ => ⟨"", "", []⟩)
    (by decide) (by decide) (by decide) (by decide) (by decide) (by decide)
    (by decide) (by decide)
  exact h.trans rfl

/-- **C10** (confirmed): a task row no longer than the resolved Enable
column index makes the Enable subscript raise an uncaught `IndexError`:
the run dies there — the calls are exactly those of the preceding tasks,
no later task is touched, and the accumulated errors are never flushed
(no `Errors!` write is issued). -/
theorem c10_short_row_aborts_run (configuration_sheet_id : String) (cfg : Config)
    (env : Call → Outcome) (pre : List (List String)) (short : List String)
    (post : List (List String)) (st : ProcState)
    (hshort : short.length ≤ cfg.enable_index)
    (hpre : process_tasks_from cfg env pre ⟨[], []⟩ = .ok st) :
    run_after_config configuration_sheet_id cfg env (pre ++ short :: post) =
      (st.calls, true) := by
  have hnone : short[cfg.enable_index]? = none := List.getElem?_eq_none hshort
  unfold run_after_config process_tasks
  rw [process_tasks_from_append, hpre]
  simp [process_tasks_from, process_one, hnone]

/-- Witness for C10: the first task records a malformed-shape error, the
second (an empty row inside the configuration window) aborts the run —
result: no calls at all, in particular the pending error is never
flushed. -/
theorem c10_short_row_aborts_run_witness :
    run_after_config "cfgSheet" ⟨1, 2, 0, 3⟩ (fun _ => .err "boom")
      [["T1", "srcSheet", "dstSheet", "TRUE", "", "A1:A2"], []] = ([], true) := by
  have h := c10_short_row_aborts_run "cfgSheet" ⟨1, 2, 0, 3⟩ (fun _ => .err "boom")
    [["T1", "srcSheet", "dstSheet", "TRUE", "", "A1:A2"]] [] []
    ⟨[], [["Task T1 is not configured properly. Check source and destination pair."]]⟩
    (by decide) rfl
  exact h.trans rfl

end GoogleSheetsReplicator
